import Mathlib

/-!
Verification development for the Zomato Feedback Analyzer (src/main.py).

The program is a single-file Streamlit app.  Its logical core is:
  * `valid_email`        (main.py lines 97-99)   — a regex check,
  * `calculate_average`  (main.py lines 102-105) — average with 1-decimal rounding,
  * `analyze_sentiment`  (main.py lines 108-122) — keyword-count sentiment label,
  * the submit branch of `feedback_section` (main.py lines 154-184) — validation
    in order (email, duplicate, blank text), then catalog update + review append,
  * the review feed of `analytics_section` (main.py lines 222-233) — reviews
    sorted by timestamp, most recent first.

Numbers: ratings are machine ints, modelled as `Int` (no overflow concern at
these magnitudes in Python, whose ints are unbounded anyway); timestamps
(`time.time()`, a float) are modelled as an abstract `ℚ` supplied to the
submit step; averages are modelled over `ℚ`, with Python's half-to-even
`round` reproduced exactly on rationals.
-/

/-- Characters admitted by the local part `[a-zA-Z0-9._%+-]` of the e-mail
regex at main.py line 98.  `Char.isAlpha`/`Char.isDigit` are the ASCII classes,
matching the explicit ASCII ranges of the regex. -/
def isLocalChar (c : Char) : Bool :=
  c.isAlpha || c.isDigit || c == '.' || c == '_' || c == '%' || c == '+' || c == '-'

/-- Characters admitted by the domain part `[a-zA-Z0-9.-]` of the e-mail
regex at main.py line 98. -/
def isDomainChar (c : Char) : Bool :=
  c.isAlpha || c.isDigit || c == '.' || c == '-'

/-- Split a character list around its LAST dot: `splitLastDot cs = some (d, t)`
iff `cs = d ++ [.] ++ t` with `t` dot-free; `none` when `cs` has no dot.
Used to decide the regex tail `[a-zA-Z0-9.-]+\.[a-zA-Z]{2,}$`: since the
top-level-domain class `[a-zA-Z]` excludes dots, a backtracking match must
place the literal dot at the last dot of the string. -/
def splitLastDot : List Char → Option (List Char × List Char)
  | [] => none
  | c :: rest =>
    match splitLastDot rest with
    | some (d, t) => some (c :: d, t)
    | none => if c = '.' then some ([], rest) else none

/-- `valid_email` (main.py lines 97-99): decides whether
`re.match(r"^[a-zA-Z0-9._%+-]+@[a-zA-Z0-9.-]+\.[a-zA-Z]{2,}$", email)`
succeeds.  The anchored pattern matches iff the string splits as
`local ++ "@" ++ domain ++ "." ++ tld` with a nonempty run of local-class
characters (necessarily the maximal such prefix, since `@` is not in the
class), a nonempty run of domain-class characters, and a final all-letter
run of length ≥ 2 after the last dot.  Python's `$` also matches just
before one trailing newline, reproduced by dropping it first. -/
def valid_email (email : String) : Bool :=
  let cs0 := email.toList
  let cs := if cs0.getLast? = some '\n' then cs0.dropLast else cs0
  let lcl := cs.takeWhile isLocalChar
  match cs.drop lcl.length with
  | [] => false
  | c :: r =>
    if lcl = [] then false
    else if c = '@' then
      match splitLastDot r with
      | some (d, t) =>
        !d.isEmpty && d.all isDomainChar && decide (2 ≤ t.length) && t.all Char.isAlpha
      | none => false
    else false

/-- Python's `round` on a value exactly representable: round half to even. -/
def roundHalfEven (q : ℚ) : ℤ :=
  let f := Rat.floor q
  if q - f < 1 / 2 then f
  else if (1 : ℚ) / 2 < q - f then f + 1
  else if f % 2 = 0 then f else f + 1

/-- `calculate_average` (main.py lines 102-105): 0 when `count` is 0,
otherwise `round(total_score / count, 1)`, i.e. the quotient rounded to one
decimal place, modelled exactly over `ℚ`. -/
def calculate_average (total_score : ℤ) (count : ℕ) : ℚ :=
  if count = 0 then 0
  else (roundHalfEven (10 * ((total_score : ℚ) / count)) : ℚ) / 10

/-- Python's `\w` word-character class (ASCII range, which covers every input
the keyword matching can see after lowercasing ASCII text). -/
def isWordChar (c : Char) : Bool :=
  c.isAlpha || c.isDigit || c == '_'

/-- Python's `\s` whitespace class (ASCII range): space, tab, newline,
carriage return, vertical tab, form feed. -/
def isSpaceChar (c : Char) : Bool :=
  c == ' ' || c == '\t' || c == '\n' || c == '\r' || c == '\x0b' || c == '\x0c'

/-- Normalization step of `analyze_sentiment` (main.py line 109):
`re.sub(r"[^\w\s]", "", text.lower())` — lowercase, then delete every
character that is neither a word character nor whitespace. -/
def normalizeText (text : String) : List Char :=
  (text.toList.map Char.toLower).filter (fun c => isWordChar c || isSpaceChar c)

/-- Accumulator-based splitting of a character list into its maximal runs of
non-whitespace characters. -/
def tokensAux : List Char → List Char → List (List Char)
  | [], acc => if acc = [] then [] else [acc.reverse]
  | c :: cs, acc =>
    if isSpaceChar c then
      (if acc = [] then [] else [acc.reverse]) ++ tokensAux cs []
    else
      tokensAux cs (c :: acc)

/-- The maximal whitespace-free runs of a character list. -/
def tokens (cs : List Char) : List (List Char) :=
  tokensAux cs []

/-- `len(re.findall(rf"\b{w}\b", text))` (main.py lines 114-115) for a
normalized `text`: after `normalizeText`, the text consists only of word
characters and whitespace, so the non-overlapping `\b`-delimited occurrences
of the (all-letter) keyword `w` are exactly the maximal word-character runs
equal to `w`. -/
def countOccurrences (w : String) (cs : List Char) : ℕ :=
  ((tokens cs).filter (fun t => t = w.toList)).length

/-- `positive_words` (main.py line 111). -/
def positive_words : List String :=
  ["delicious", "good", "wonderful", "happy", "best", "tasty", "love"]

/-- `negative_words` (main.py line 112). -/
def negative_words : List String :=
  ["bad", "worst", "bitter", "salty", "regret", "slow", "cold", "disappointing"]

/-- The positive keyword count `pos` of `analyze_sentiment` (main.py line 114). -/
def posCount (text : String) : ℕ :=
  (positive_words.map (fun w => countOccurrences w (normalizeText text))).sum

/-- The negative keyword count `neg` of `analyze_sentiment` (main.py line 115). -/
def negCount (text : String) : ℕ :=
  (negative_words.map (fun w => countOccurrences w (normalizeText text))).sum

/-- `analyze_sentiment` (main.py lines 108-122): returns the (label, color)
pair decided by comparing the keyword counts. -/
def analyze_sentiment (text : String) : String × String :=
  if posCount text > negCount text then ("Positive 😊", "#2E7D32")
  else if negCount text > posCount text then ("Negative 😞", "#D32F2F")
  else ("Neutral 😐", "#FFA000")

/-- One catalog entry (the per-product dict of main.py lines 62-89):
running rating sum `ts`, review count `c`, and static display fields. -/
structure ProductInfo where
  ts : ℤ
  c : ℕ
  type : String
  price : ℕ
  vnv : String
  data : String
deriving DecidableEq

/-- One review record (the dict appended at main.py lines 172-180). -/
structure Review where
  email : String
  prod : String
  rating : ℤ
  review : String
  sentiment : String
  color : String
  time : ℚ
deriving DecidableEq

/-- The session state (main.py lines 56-90): the product catalog — a Python
dict modelled as an insertion-ordered association list — and the review
list `db`. -/
structure AppState where
  products : List (String × ProductInfo)
  db : List Review
deriving DecidableEq

/-- The initial catalog built by `init_session` (main.py lines 60-90). -/
def init_products : List (String × ProductInfo) :=
  [("Pizza", ⟨0, 0, "Breads", 549, "Veg/Non-Veg", "Cheese, Mushroom, Chicken"⟩),
   ("Burger", ⟨0, 0, "Breads", 349, "Veg/Non-Veg", "Cheese, Onion, Patty"⟩),
   ("French Fries", ⟨0, 0, "Snacks", 249, "Veg", "Salted, Roasted"⟩),
   ("Nuggets", ⟨0, 0, "Snacks", 199, "Veg/Non-Veg", "Crispy Chicken/Veg"⟩)]

/-- The state right after `init_session` (main.py lines 56-90): the fixed
catalog and an empty review list. -/
def init_state : AppState :=
  ⟨init_products, []⟩

/-- The keys of the catalog, in insertion order
(`list(st.session_state.products.keys())`, main.py line 150). -/
def keysOf (ps : List (String × ProductInfo)) : List String :=
  ps.map Prod.fst

/-- Dict lookup on the association-list catalog. -/
def lookup : List (String × ProductInfo) → String → Option ProductInfo
  | [], _ => none
  | p :: ps, name => if p.1 = name then some p.2 else lookup ps name

/-- The duplicate test at main.py lines 159-160:
`any(r for r in db if r["email"] == email and r["prod"] == product)` —
Python `==` on strings is exact, case-sensitive equality. -/
def isDuplicate (db : List Review) (email product : String) : Bool :=
  db.any (fun r => r.email == email && r.prod == product)

/-- Python `str.strip()` with no argument: delete leading and trailing
whitespace. -/
def strip (cs : List Char) : List Char :=
  ((cs.dropWhile isSpaceChar).reverse.dropWhile isSpaceChar).reverse

/-- The catalog update at main.py lines 169-170:
`products[product]["ts"] += rating; products[product]["c"] += 1` — on the
association list, the entry (entries) keyed `product` get `ts` increased by
`rating` and `c` by one, every other entry is untouched. -/
def updateProduct (ps : List (String × ProductInfo)) (product : String) (rating : ℤ) :
    List (String × ProductInfo) :=
  ps.map (fun p =>
    if p.1 = product then (p.1, { p.2 with ts := p.2.ts + rating, c := p.2.c + 1 }) else p)

/-- Outcome of a submit attempt: the three rejection messages of main.py
lines 157, 161, 164 and acceptance (line 182). -/
inductive SubmitResult where
  | invalidEmail
  | duplicateReview
  | emptyReview
  | accepted
deriving DecidableEq

/-- The submit branch of `feedback_section` (main.py lines 154-184): the
three validation checks in source order, and on success the catalog update
and the append of one review record carrying the sentiment classification
of the text and the current timestamp `now` (`time.time()`). -/
def submit (s : AppState) (email product : String) (rating : ℤ) (review : String)
    (now : ℚ) : SubmitResult × AppState :=
  if ¬ valid_email email then (SubmitResult.invalidEmail, s)
  else if isDuplicate s.db email product then (SubmitResult.duplicateReview, s)
  else if strip review.toList = [] then (SubmitResult.emptyReview, s)
  else
    (SubmitResult.accepted,
      ⟨updateProduct s.products product rating,
       s.db ++ [⟨email, product, rating, review,
                 (analyze_sentiment review).1, (analyze_sentiment review).2, now⟩]⟩)

/-- States reachable from `init_state` by submit operations whose inputs come
from the form widgets: `product` from the selectbox over the catalog keys
(main.py line 150) and `rating` from the 1-5 slider (main.py line 151);
e-mail and review text are free-form text inputs. -/
inductive Reachable : AppState → Prop where
  | init : Reachable init_state
  | step (s : AppState) (email product : String) (rating : ℤ) (review : String) (now : ℚ)
      (hs : Reachable s) (h1 : 1 ≤ rating) (h5 : rating ≤ 5)
      (hp : product ∈ keysOf s.products) :
      Reachable (submit s email product rating review now).2

/-- Ordering used by the review feed (main.py line 224,
`df.sort_values("time", ascending=False)`): `a` before `b` when `a` is at
least as recent. -/
def moreRecent (a b : Review) : Prop :=
  b.time ≤ a.time

instance : DecidableRel moreRecent :=
  fun a b => inferInstanceAs (Decidable (b.time ≤ a.time))

instance : IsTotal Review moreRecent :=
  ⟨fun a b => le_total b.time a.time⟩

instance : IsTrans Review moreRecent :=
  ⟨fun _ _ _ h1 h2 => le_trans h2 h1⟩

/-- The review feed order of `analytics_section` (main.py line 224): the
review list sorted by timestamp, most recent first. -/
def sortByTimeDesc (db : List Review) : List Review :=
  List.insertionSort moreRecent db

/-- `Rat.floor` agrees with the `FloorRing` floor on `ℚ`. -/
theorem rat_floor_eq (q : ℚ) : Rat.floor q = ⌊q⌋ :=
  rfl

/-- An accepted submit passed all three checks and produced exactly the
catalog update and the one-record append of main.py lines 166-180. -/
theorem submit_of_accepted (s : AppState) (email product : String) (rating : ℤ)
    (review : String) (now : ℚ)
    (h : (submit s email product rating review now).1 = SubmitResult.accepted) :
    valid_email email = true ∧ isDuplicate s.db email product = false ∧
    strip review.toList ≠ [] ∧
    (submit s email product rating review now).2 =
      ⟨updateProduct s.products product rating,
       s.db ++ [⟨email, product, rating, review,
                 (analyze_sentiment review).1, (analyze_sentiment review).2, now⟩]⟩ := by
  by_cases hv : valid_email email
  · by_cases hd : isDuplicate s.db email product
    · simp [submit, hv, hd] at h
    · by_cases hb : strip review.data = []
      · simp [submit, hv, hd, hb] at h
      · exact ⟨hv, by simpa using hd, hb, by simp [submit, hv, hd, hb]⟩
  · simp [submit, hv] at h

/-- A rejected submit leaves the state untouched (the three rejection
branches at main.py lines 156-164 only emit a message). -/
theorem submit_rejected_state (s : AppState) (email product : String) (rating : ℤ)
    (review : String) (now : ℚ)
    (h : (submit s email product rating review now).1 ≠ SubmitResult.accepted) :
    (submit s email product rating review now).2 = s := by
  by_cases hv : valid_email email
  · by_cases hd : isDuplicate s.db email product
    · simp [submit, hv, hd]
    · by_cases hb : strip review.data = []
      · simp [submit, hv, hd, hb]
      · exact absurd (by simp [submit, hv, hd, hb]) h
  · simp [submit, hv]

/-- Every submit either rejects and keeps the state, or accepts and performs
exactly the update + append. -/
theorem submit_cases (s : AppState) (email product : String) (rating : ℤ)
    (review : String) (now : ℚ) :
    (submit s email product rating review now).2 = s ∨
    ((submit s email product rating review now).1 = SubmitResult.accepted ∧
     isDuplicate s.db email product = false ∧
     (submit s email product rating review now).2 =
       ⟨updateProduct s.products product rating,
        s.db ++ [⟨email, product, rating, review,
                  (analyze_sentiment review).1, (analyze_sentiment review).2, now⟩]⟩) := by
  by_cases hacc : (submit s email product rating review now).1 = SubmitResult.accepted
  · have h := submit_of_accepted s email product rating review now hacc
    exact Or.inr ⟨hacc, h.2.1, h.2.2.2⟩
  · exact Or.inl (submit_rejected_state s email product rating review now hacc)

/-- Updating a product leaves the looked-up entry of `product` with its sum
increased by the rating and its count by one. -/
theorem lookup_updateProduct_self (ps : List (String × ProductInfo)) (product : String)
    (rating : ℤ) (info : ProductInfo) (h : lookup ps product = some info) :
    lookup (updateProduct ps product rating) product =
      some { info with ts := info.ts + rating, c := info.c + 1 } := by
  induction ps with
  | nil => simp [lookup] at h
  | cons p ps ih =>
    by_cases hp : p.1 = product
    · simp only [lookup, if_pos hp, Option.some.injEq] at h
      simp only [updateProduct, List.map_cons, if_pos hp, lookup, Option.some.injEq]
      rw [h]
    · simp only [lookup, if_neg hp] at h
      simp only [updateProduct, List.map_cons, if_neg hp, lookup, if_neg hp]
      simp only [updateProduct] at ih
      exact ih h

/-- Updating a product leaves every other catalog name's entry unchanged. -/
theorem lookup_updateProduct_ne (ps : List (String × ProductInfo)) (product n : String)
    (rating : ℤ) (h : n ≠ product) :
    lookup (updateProduct ps product rating) n = lookup ps n := by
  induction ps with
  | nil => simp [lookup, updateProduct]
  | cons p ps ih =>
    by_cases hp : p.1 = product
    · have hpn : ¬ p.1 = n := hp ▸ fun e => h e.symm
      simp only [updateProduct, List.map_cons, if_pos hp, lookup, if_neg hpn]
      simp only [updateProduct] at ih
      exact ih
    · by_cases hpn : p.1 = n
      · simp only [updateProduct, List.map_cons, if_neg hp, lookup, if_pos hpn]
      · simp only [updateProduct, List.map_cons, if_neg hp, lookup, if_neg hpn]
        simp only [updateProduct] at ih
        exact ih

/-- The catalog update never changes the key set (nor its order). -/
theorem keysOf_updateProduct (ps : List (String × ProductInfo)) (product : String)
    (rating : ℤ) : keysOf (updateProduct ps product rating) = keysOf ps := by
  simp only [keysOf, updateProduct, List.map_map]
  apply List.map_congr_left
  intro p _
  by_cases hp : p.1 = product <;> simp [hp]

/-- A false duplicate test means no stored review carries this
(email, product) pair. -/
theorem isDuplicate_eq_false (db : List Review) (email product : String)
    (h : isDuplicate db email product = false) :
    ∀ r ∈ db, ¬(r.email = email ∧ r.prod = product) := by
  intro r hr
  simp only [isDuplicate, List.any_eq_false, Bool.and_eq_true, beq_iff_eq, not_and] at h
  intro he
  exact h r hr he.1 he.2

/-- C1: a submission that passes all three validation checks increments
exactly the selected product's cumulative rating sum by the submitted rating
and its review count by 1 (keeping its static fields), appends exactly one
review record to the review collection (keeping every pre-existing review),
and leaves every other product's catalog entry unchanged. -/
theorem submit_accept_frame (s : AppState) (email product : String) (rating : ℤ)
    (review : String) (now : ℚ) (info : ProductInfo) (n : String)
    (hacc : (submit s email product rating review now).1 = SubmitResult.accepted)
    (hlook : lookup s.products product = some info) (hn : n ≠ product) :
    (submit s email product rating review now).2.db =
      s.db ++ [⟨email, product, rating, review,
                (analyze_sentiment review).1, (analyze_sentiment review).2, now⟩] ∧
    lookup (submit s email product rating review now).2.products product =
      some { info with ts := info.ts + rating, c := info.c + 1 } ∧
    lookup (submit s email product rating review now).2.products n =
      lookup s.products n := by
  obtain ⟨_, _, _, hstate⟩ := submit_of_accepted s email product rating review now hacc
  rw [hstate]
  exact ⟨rfl, lookup_updateProduct_self s.products product rating info hlook,
    lookup_updateProduct_ne s.products product n rating hn⟩

/-- Witness for C1: a valid first review of Pizza from the initial state. -/
theorem submit_accept_frame_witness :
    (submit init_state "a@b.com" "Pizza" 4 "good taste" 1).2.db =
      init_state.db ++ [⟨"a@b.com", "Pizza", 4, "good taste",
        (analyze_sentiment "good taste").1, (analyze_sentiment "good taste").2, 1⟩] ∧
    lookup (submit init_state "a@b.com" "Pizza" 4 "good taste" 1).2.products "Pizza" =
      some ⟨0 + 4, 0 + 1, "Breads", 549, "Veg/Non-Veg", "Cheese, Mushroom, Chicken"⟩ ∧
    lookup (submit init_state "a@b.com" "Pizza" 4 "good taste" 1).2.products "Burger" =
      lookup init_state.products "Burger" :=
  submit_accept_frame init_state "a@b.com" "Pizza" 4 "good taste" 1
    ⟨0, 0, "Breads", 549, "Veg/Non-Veg", "Cheese, Mushroom, Chicken"⟩ "Burger"
    (by decide) (by decide) (by decide)

/-- C2: the validator applies its rules in source order — email format,
then duplicate (email, product), then blank text — reports the first failing
rule, and every rejection leaves the state unmodified. -/
theorem submit_validation_order (s : AppState) (email product : String) (rating : ℤ)
    (review : String) (now : ℚ) :
    ((submit s email product rating review now).1 = SubmitResult.invalidEmail ↔
      valid_email email = false) ∧
    ((submit s email product rating review now).1 = SubmitResult.duplicateReview ↔
      (valid_email email = true ∧ isDuplicate s.db email product = true)) ∧
    ((submit s email product rating review now).1 = SubmitResult.emptyReview ↔
      (valid_email email = true ∧ isDuplicate s.db email product = false ∧
       strip review.toList = [])) ∧
    ((submit s email product rating review now).1 ≠ SubmitResult.accepted →
      (submit s email product rating review now).2 = s) := by
  refine ⟨?_, ?_, ?_, submit_rejected_state s email product rating review now⟩ <;>
  · by_cases hv : valid_email email
    · by_cases hd : isDuplicate s.db email product
      · simp [submit, hv, hd]
      · by_cases hb : strip review.data = []
        · simp [submit, hv, hd, hb]
        · simp [submit, hv, hd, hb]
    · simp [submit, hv]

/-- Witness for C2: a rejected (invalid e-mail) submission leaves the
initial state unchanged. -/
theorem submit_validation_order_witness :
    (submit init_state "notanemail" "Pizza" 3 "hi" 0).2 = init_state :=
  (submit_validation_order init_state "notanemail" "Pizza" 3 "hi" 0).2.2.2 (by decide)

/-- C9: the duplicate check uses exact, case-sensitive string equality on
e-mails: "Alice@x.com" and then "alice@x.com" for the same product are both
accepted, leaving two stored reviews for the same mailbox and product. -/
theorem duplicate_check_case_sensitive :
    (submit init_state "Alice@x.com" "Pizza" 5 "good" 0).1 = SubmitResult.accepted ∧
    (submit (submit init_state "Alice@x.com" "Pizza" 5 "good" 0).2
        "alice@x.com" "Pizza" 4 "bad" 1).1 = SubmitResult.accepted ∧
    ((submit (submit init_state "Alice@x.com" "Pizza" 5 "good" 0).2
        "alice@x.com" "Pizza" 4 "bad" 1).2.db.map (fun r => r.email)) =
      ["Alice@x.com", "alice@x.com"] ∧
    ((submit (submit init_state "Alice@x.com" "Pizza" 5 "good" 0).2
        "alice@x.com" "Pizza" 4 "bad" 1).2.db.map (fun r => r.prod)) =
      ["Pizza", "Pizza"] ∧
    ((submit (submit init_state "Alice@x.com" "Pizza" 5 "good" 0).2
        "alice@x.com" "Pizza" 4 "bad" 1).2.db.map
          (fun r => r.email.toList.map Char.toLower)) =
      ["alice@x.com".toList, "alice@x.com".toList] := by
  refine ⟨by decide, by decide, by decide, by decide, by decide⟩

/-- C10: the submit logic itself never inspects the rating: for EVERY
integer rating — also outside the slider's 1-5 range — a submission with a
valid e-mail, no duplicate and non-blank text is accepted, the selected
product's sum is increased by that rating, and the review is stored with
it. -/
theorem rating_not_validated (s : AppState) (email product : String) (rating : ℤ)
    (review : String) (now : ℚ) (info : ProductInfo)
    (hv : valid_email email = true)
    (hd : isDuplicate s.db email product = false)
    (hb : strip review.toList ≠ [])
    (hlook : lookup s.products product = some info) :
    (submit s email product rating review now).1 = SubmitResult.accepted ∧
    (submit s email product rating review now).2.db =
      s.db ++ [⟨email, product, rating, review,
                (analyze_sentiment review).1, (analyze_sentiment review).2, now⟩] ∧
    lookup (submit s email product rating review now).2.products product =
      some { info with ts := info.ts + rating, c := info.c + 1 } := by
  have hb2 : ¬ strip review.data = [] := hb
  have hacc : (submit s email product rating review now).1 = SubmitResult.accepted := by
    simp [submit, hv, hd, hb2]
  obtain ⟨_, _, _, hstate⟩ := submit_of_accepted s email product rating review now hacc
  rw [hstate]
  exact ⟨hacc, rfl, lookup_updateProduct_self s.products product rating info hlook⟩

/-- Witness for C10: a rating of 100, far outside the slider range, is
accepted and added to Burger's running sum. -/
theorem rating_not_validated_witness :
    (submit init_state "z@q.io" "Burger" 100 "meh" 2).1 = SubmitResult.accepted ∧
    (submit init_state "z@q.io" "Burger" 100 "meh" 2).2.db =
      init_state.db ++ [⟨"z@q.io", "Burger", 100, "meh",
        (analyze_sentiment "meh").1, (analyze_sentiment "meh").2, 2⟩] ∧
    lookup (submit init_state "z@q.io" "Burger" 100 "meh" 2).2.products "Burger" =
      some ⟨0 + 100, 0 + 1, "Breads", 349, "Veg/Non-Veg", "Cheese, Onion, Patty"⟩ :=
  rating_not_validated init_state "z@q.io" "Burger" 100 "meh" 2
    ⟨0, 0, "Breads", 349, "Veg/Non-Veg", "Cheese, Onion, Patty"⟩
    (by decide) (by decide) (by decide) (by decide)

/-- Reachability invariant: the stored reviews are pairwise distinct on
(email, product), because the duplicate check guards every append. -/
theorem pairwise_db_of_reachable (s : AppState) (hs : Reachable s) :
    List.Pairwise (fun r1 r2 => ¬(r1.email = r2.email ∧ r1.prod = r2.prod)) s.db := by
  induction hs with
  | init => simp [init_state]
  | step s email product rating review now hs h1 h5 hp ih =>
    rcases submit_cases s email product rating review now with hkeep | ⟨hacc, hdup, hstate⟩
    · rw [hkeep]; exact ih
    · rw [hstate]
      rw [List.pairwise_append]
      refine ⟨ih, List.pairwise_singleton _ _, ?_⟩
      intro a ha b hb
      rw [List.mem_singleton] at hb
      subst hb
      intro hab
      exact isDuplicate_eq_false s.db email product hdup a ha ⟨hab.1, hab.2⟩

/-- Reachability invariant: every stored review has a slider rating in
[1, 5] and names a catalog key, and the key set never changes. -/
theorem review_fields_of_reachable (s : AppState) (hs : Reachable s) :
    ∀ r ∈ s.db, (1 ≤ r.rating ∧ r.rating ≤ 5) ∧ r.prod ∈ keysOf s.products := by
  induction hs with
  | init => simp [init_state]
  | step s email product rating review now hs h1 h5 hp ih =>
    intro r hr
    rcases submit_cases s email product rating review now with hkeep | ⟨hacc, hdup, hstate⟩
    · rw [hkeep] at hr ⊢; exact ih r hr
    · rw [hstate] at hr ⊢
      simp only [keysOf_updateProduct]
      rcases List.mem_append.mp hr with hold | hnew
      · exact ih r hold
      · rw [List.mem_singleton] at hnew
        subst hnew
        exact ⟨⟨h1, h5⟩, hp⟩

/-- C3: in every reachable state the review collection holds at most one
review per (email, product) pair, and a second submission carrying the same
(email, product) as a stored review is rejected whatever its rating and
text are. -/
theorem unique_review_invariant (s : AppState) (hs : Reachable s)
    (email product : String) (rating : ℤ) (review : String) (now : ℚ)
    (r : Review) (hr : r ∈ s.db) (he : r.email = email) (hp : r.prod = product) :
    List.Pairwise (fun r1 r2 => ¬(r1.email = r2.email ∧ r1.prod = r2.prod)) s.db ∧
    (submit s email product rating review now).1 ≠ SubmitResult.accepted := by
  refine ⟨pairwise_db_of_reachable s hs, ?_⟩
  intro hacc
  obtain ⟨_, hdup, _, _⟩ := submit_of_accepted s email product rating review now hacc
  exact isDuplicate_eq_false s.db email product hdup r hr ⟨he, hp⟩

/-- C6: in every reachable state, every stored review's rating is an
integer in [1, 5] and its product reference is a catalog key. -/
theorem review_validity_invariant (s : AppState) (hs : Reachable s)
    (r : Review) (hr : r ∈ s.db) :
    (1 ≤ r.rating ∧ r.rating ≤ 5) ∧ r.prod ∈ keysOf s.products :=
  review_fields_of_reachable s hs r hr

/-- Witness for C3: after one accepted review, its stored record blocks a
second submission with the same e-mail and product. -/
theorem unique_review_invariant_witness :
    List.Pairwise (fun r1 r2 => ¬(r1.email = r2.email ∧ r1.prod = r2.prod))
      (submit init_state "a@b.com" "Pizza" 5 "good" 0).2.db ∧
    (submit (submit init_state "a@b.com" "Pizza" 5 "good" 0).2
      "a@b.com" "Pizza" 2 "bad" 7).1 ≠ SubmitResult.accepted :=
  unique_review_invariant (submit init_state "a@b.com" "Pizza" 5 "good" 0).2
    (Reachable.step init_state "a@b.com" "Pizza" 5 "good" 0 Reachable.init
      (by decide) (by decide) (by decide))
    "a@b.com" "Pizza" 2 "bad" 7
    ⟨"a@b.com", "Pizza", 5, "good",
     (analyze_sentiment "good").1, (analyze_sentiment "good").2, 0⟩
    (by decide) rfl rfl

/-- Witness for C6: the review stored by one accepted submission has its
rating in [1, 5] and references the catalog key Pizza. -/
theorem review_validity_invariant_witness :
    (1 ≤ (⟨"a@b.com", "Pizza", 5, "good",
          (analyze_sentiment "good").1, (analyze_sentiment "good").2, 0⟩ : Review).rating ∧
     (⟨"a@b.com", "Pizza", 5, "good",
       (analyze_sentiment "good").1, (analyze_sentiment "good").2, 0⟩ : Review).rating ≤ 5) ∧
    (⟨"a@b.com", "Pizza", 5, "good",
      (analyze_sentiment "good").1, (analyze_sentiment "good").2, 0⟩ : Review).prod ∈
      keysOf (submit init_state "a@b.com" "Pizza" 5 "good" 0).2.products :=
  review_validity_invariant (submit init_state "a@b.com" "Pizza" 5 "good" 0).2
    (Reachable.step init_state "a@b.com" "Pizza" 5 "good" 0 Reachable.init
      (by decide) (by decide) (by decide))
    ⟨"a@b.com", "Pizza", 5, "good",
     (analyze_sentiment "good").1, (analyze_sentiment "good").2, 0⟩
    (by decide)

/-- C4: the classifier returns the positive label/color pair when the
positive keyword count exceeds the negative one, the negative pair in the
converse case, the neutral pair on a tie, and in particular classifies the
three specification examples as Positive, Negative and Neutral.  The counts
are whole-word matches over the lower-cased, punctuation-stripped text. -/
theorem sentiment_classifier_spec (text : String) :
    (posCount text > negCount text →
      analyze_sentiment text = ("Positive 😊", "#2E7D32")) ∧
    (negCount text > posCount text →
      analyze_sentiment text = ("Negative 😞", "#D32F2F")) ∧
    (posCount text = negCount text →
      analyze_sentiment text = ("Neutral 😐", "#FFA000")) ∧
    analyze_sentiment "This pizza was delicious and good" = ("Positive 😊", "#2E7D32") ∧
    analyze_sentiment "worst cold bitter" = ("Negative 😞", "#D32F2F") ∧
    analyze_sentiment "it was food" = ("Neutral 😐", "#FFA000") := by
  refine ⟨?_, ?_, ?_, by decide, by decide, by decide⟩
  · intro h
    simp [analyze_sentiment, h]
  · intro h
    have h2 : ¬ posCount text > negCount text := by omega
    simp [analyze_sentiment, h, h2]
  · intro h
    simp [analyze_sentiment, h]

/-- Witness for C4: a single positive keyword yields the positive pair. -/
theorem sentiment_classifier_spec_witness :
    analyze_sentiment "good" = ("Positive 😊", "#2E7D32") :=
  (sentiment_classifier_spec "good").1 (by decide)

/-- Half-to-even rounding lands within 1/2 of its argument. -/
theorem roundHalfEven_close (q : ℚ) : |(roundHalfEven q : ℚ) - q| ≤ 1 / 2 := by
  have hfl : (Rat.floor q : ℚ) ≤ q := by rw [rat_floor_eq]; exact Int.floor_le q
  have hfu : q < (Rat.floor q : ℚ) + 1 := by rw [rat_floor_eq]; exact Int.lt_floor_add_one q
  simp only [roundHalfEven]
  split_ifs <;> rw [abs_le] <;> constructor <;> push_cast <;> linarith

/-- C5: the average is 0 for an empty count, otherwise the quotient sum /
count rounded to one decimal place (ten times it is the half-even rounding
of ten times the quotient, hence it is within 1/20 of the quotient), and
the specification's concrete instances hold: average(0, 0) = 0,
average(12, 4) = 3.0, and the average over ratings [5, 3, 4] is 4.0. -/
theorem calculate_average_spec :
    calculate_average 0 0 = 0 ∧
    (∀ total : ℤ, ∀ count : ℕ, count = 0 → calculate_average total count = 0) ∧
    (∀ total : ℤ, ∀ count : ℕ, count ≠ 0 →
      10 * calculate_average total count =
        (roundHalfEven (10 * ((total : ℚ) / (count : ℚ))) : ℚ) ∧
      |calculate_average total count - (total : ℚ) / (count : ℚ)| ≤ 1 / 20) ∧
    calculate_average 12 4 = 3 ∧
    calculate_average (5 + 3 + 4) 3 = 4 := by
  refine ⟨by norm_num [calculate_average], fun total count hc => by
      simp [calculate_average, hc], fun total count hc => ?_, ?_, ?_⟩
  · have hval : calculate_average total count =
        (roundHalfEven (10 * ((total : ℚ) / (count : ℚ))) : ℚ) / 10 := by
      simp [calculate_average, hc]
    have hcl := roundHalfEven_close (10 * ((total : ℚ) / (count : ℚ)))
    constructor
    · rw [hval]; ring
    · rw [hval]
      rw [abs_le] at hcl ⊢
      constructor <;> [linarith; linarith]
  · have h1 : (10 : ℚ) * (((12 : ℤ) : ℚ) / ((4 : ℕ) : ℚ)) = 30 := by norm_num
    norm_num [calculate_average, h1, roundHalfEven, rat_floor_eq]
  · have h1 : (10 : ℚ) * (((5 + 3 + 4 : ℤ) : ℚ) / ((3 : ℕ) : ℚ)) = 40 := by norm_num
    norm_num [calculate_average, h1, roundHalfEven, rat_floor_eq]

/-- Witness for C5: the nonzero-count clause at sum 7, count 2
(7 / 2 = 3.5 is exactly representable at one decimal). -/
theorem calculate_average_spec_witness :
    10 * calculate_average 7 2 =
      (roundHalfEven (10 * (((7 : ℤ) : ℚ) / ((2 : ℕ) : ℚ))) : ℚ) ∧
    |calculate_average 7 2 - ((7 : ℤ) : ℚ) / ((2 : ℕ) : ℚ)| ≤ 1 / 20 :=
  calculate_average_spec.2.2.1 7 2 (by decide)

/-- C7: for a non-empty review collection the feed shows the reviews in
decreasing timestamp order: the sorted list is ordered by `moreRecent` and
is a permutation of the stored collection. -/
theorem recent_reviews_sorted (db : List Review) (h : db ≠ []) :
    List.Sorted moreRecent (sortByTimeDesc db) ∧ (sortByTimeDesc db).Perm db :=
  ⟨List.sorted_insertionSort moreRecent db, List.perm_insertionSort moreRecent db⟩

/-- Witness for C7: a two-review feed. -/
theorem recent_reviews_sorted_witness :
    List.Sorted moreRecent (sortByTimeDesc
      [⟨"a@b.com", "Pizza", 5, "good", "Positive 😊", "#2E7D32", 1⟩,
       ⟨"c@d.com", "Burger", 3, "ok", "Neutral 😐", "#FFA000", 5⟩]) ∧
    (sortByTimeDesc
      [⟨"a@b.com", "Pizza", 5, "good", "Positive 😊", "#2E7D32", 1⟩,
       ⟨"c@d.com", "Burger", 3, "ok", "Neutral 😐", "#FFA000", 5⟩]).Perm
      [⟨"a@b.com", "Pizza", 5, "good", "Positive 😊", "#2E7D32", 1⟩,
       ⟨"c@d.com", "Burger", 3, "ok", "Neutral 😐", "#FFA000", 5⟩] :=
  recent_reviews_sorted
    [⟨"a@b.com", "Pizza", 5, "good", "Positive 😊", "#2E7D32", 1⟩,
     ⟨"c@d.com", "Burger", 3, "ok", "Neutral 😐", "#FFA000", 5⟩] (by simp)

/-- C8: the classifier is stateless and deterministic — two accepted
submissions of the same text, in arbitrary and possibly different states
and histories, store the identical (label, color) pair, namely
`analyze_sentiment` of that text alone. -/
theorem classifier_stateless (s1 s2 : AppState) (e1 p1 e2 p2 : String)
    (rt1 rt2 : ℤ) (text : String) (n1 n2 : ℚ)
    (h1 : (submit s1 e1 p1 rt1 text n1).1 = SubmitResult.accepted)
    (h2 : (submit s2 e2 p2 rt2 text n2).1 = SubmitResult.accepted) :
    ((submit s1 e1 p1 rt1 text n1).2.db.getLast?).map (fun r => (r.sentiment, r.color)) =
      some (analyze_sentiment text) ∧
    ((submit s2 e2 p2 rt2 text n2).2.db.getLast?).map (fun r => (r.sentiment, r.color)) =
      some (analyze_sentiment text) ∧
    ((submit s1 e1 p1 rt1 text n1).2.db.getLast?).map (fun r => (r.sentiment, r.color)) =
      ((submit s2 e2 p2 rt2 text n2).2.db.getLast?).map (fun r => (r.sentiment, r.color)) := by
  obtain ⟨_, _, _, hs1⟩ := submit_of_accepted s1 e1 p1 rt1 text n1 h1
  obtain ⟨_, _, _, hs2⟩ := submit_of_accepted s2 e2 p2 rt2 text n2 h2
  rw [hs1, hs2]
  simp [List.getLast?_concat]

/-- Witness for C8: the same text submitted from the initial state and from
a different, already-populated state records the same classification. -/
theorem classifier_stateless_witness :
    ((submit init_state "a@b.com" "Pizza" 5 "delicious" 4).2.db.getLast?).map
        (fun r => (r.sentiment, r.color)) = some (analyze_sentiment "delicious") ∧
    ((submit (submit init_state "x@y.zz" "Burger" 2 "cold bad" 3).2
        "c@d.ee" "Nuggets" 1 "delicious" 9).2.db.getLast?).map
        (fun r => (r.sentiment, r.color)) = some (analyze_sentiment "delicious") ∧
    ((submit init_state "a@b.com" "Pizza" 5 "delicious" 4).2.db.getLast?).map
        (fun r => (r.sentiment, r.color)) =
      ((submit (submit init_state "x@y.zz" "Burger" 2 "cold bad" 3).2
        "c@d.ee" "Nuggets" 1 "delicious" 9).2.db.getLast?).map
        (fun r => (r.sentiment, r.color)) :=
  classifier_stateless init_state (submit init_state "x@y.zz" "Burger" 2 "cold bad" 3).2
    "a@b.com" "Pizza" "c@d.ee" "Nuggets" 5 1 "delicious" 4 9 (by decide) (by decide)
